import Mathlib

/-!
Verification of the networking core of the boosttorrent client: the tracker
announce response decoder (src/tracker/mod.rs) and the peer connection
engine and peer handle (src/peer/mod.rs).

Rust values are embedded as follows: bytes are `Nat` in the range 0..256,
Rust byte arrays and `String`s are `List Nat` of their bytes, fallible code
returns `Except`, and a possible Rust panic is modelled by wrapping results
in `Option` with `none` standing for a panic.  Machine-integer casts
(`as u16`, `as u32`) are explicit `% 2 ^ w` operations.
-/

/-- Byte list of an ASCII Lean string literal, used for Rust string and byte
literals appearing in the source. -/
def asciiBytes (s : String) : List Nat := s.toList.map Char.toNat

/-- Rust `as u16` cast from a (possibly negative) integer: the low 16 bits. -/
def intToU16 (i : Int) : Nat := (i % 65536).toNat

/-- Rust `as u32` cast from a (possibly negative) integer: the low 32 bits. -/
def intToU32 (i : Int) : Nat := (i % 4294967296).toNat

/-- Modelled from the spec: the boostencode structured value type (spec section 6),
the external structured-value library whose source is not under src/: variants for
byte string, integer, list, and dictionary (keys are byte strings, insertion
order preserved). -/
inductive Value where
  | bstring : List Nat → Value
  | integer : Int → Value
  | vlist : List Value → Value
  | dict : List (List Nat × Value) → Value

/-- Dictionary lookup by key, first match in insertion order (the map `get`
used by the decoders). -/
def mapGet (m : List (List Nat × Value)) (k : List Nat) : Option Value :=
  match m with
  | [] => none
  | (k2, v) :: rest => if k2 = k then some v else mapGet rest k

/-- Accessor `Value::dict`: the entry list when the value is a dictionary. -/
def Value.dict? : Value → Option (List (List Nat × Value))
  | .dict m => some m
  | _ => none

/-- Accessor `Value::bstring`: the raw bytes when the value is a byte string. -/
def Value.bstring? : Value → Option (List Nat)
  | .bstring bs => some bs
  | _ => none

/-- Accessor `Value::integer`: the integer when the value is an integer. -/
def Value.integer? : Value → Option Int
  | .integer i => some i
  | _ => none

/-- True when a byte is a UTF-8 continuation byte (0x80..0xBF). -/
def utf8Cont (b : Nat) : Bool := 128 ≤ b && b ≤ 191

/-- UTF-8 validity of a byte sequence, including the overlong, surrogate and
out-of-range checks a Rust `String` conversion performs. -/
def validUtf8 : List Nat → Bool
  | [] => true
  | b :: rest =>
    if b ≤ 127 then validUtf8 rest
    else if b ≤ 193 then false
    else if b ≤ 223 then
      match rest with
      | c1 :: r => utf8Cont c1 && validUtf8 r
      | _ => false
    else if b ≤ 239 then
      match rest with
      | c1 :: c2 :: r =>
        (if b == 224 then 160 ≤ c1 && c1 ≤ 191
         else if b == 237 then 128 ≤ c1 && c1 ≤ 159
         else utf8Cont c1) && (utf8Cont c2 && validUtf8 r)
      | _ => false
    else if b ≤ 244 then
      match rest with
      | c1 :: c2 :: c3 :: r =>
        (if b == 240 then 144 ≤ c1 && c1 ≤ 191
         else if b == 244 then 128 ≤ c1 && c1 ≤ 143
         else utf8Cont c1) && (utf8Cont c2 && (utf8Cont c3 && validUtf8 r))
      | _ => false
    else false

/-- Accessor `Value::bstring_utf8`: the bytes of a byte-string value when they
form valid UTF-8 (a Rust `String` is represented here by its UTF-8 bytes). -/
def Value.bstring_utf8 : Value → Option (List Nat)
  | .bstring bs => if validUtf8 bs then some bs else none
  | _ => none

/-- Modelled from the spec: the decode failure of the structured-value library
(spec section 6, a decode entry point that fails with a `DecodeError` on
malformed input). -/
inductive DecodeError where
  | malformed
deriving DecidableEq

/-- ASCII decimal digit test on a byte. -/
def isDigitByte (b : Nat) : Bool := 48 ≤ b && b ≤ 57

/-- Value of a list of ASCII decimal digit bytes, most significant first. -/
def digitsVal (ds : List Nat) : Nat := ds.foldl (fun acc d => 10 * acc + (d - 48)) 0

/-- Parse a bencoded integer body (after the leading marker byte): optional
minus sign, digits, then the terminator byte 0x65. -/
def decInt (l : List Nat) : Option (Value × List Nat) :=
  let (neg, l2) := match l with | 45 :: r => (true, r) | _ => (false, l)
  let ds := l2.takeWhile isDigitByte
  let r := l2.dropWhile isDigitByte
  if ds = [] then none
  else
    match r with
    | 101 :: r2 => some (.integer (if neg then -(digitsVal ds : Int) else (digitsVal ds : Int)), r2)
    | _ => none

/-- Parse a bencoded byte string: decimal length, a colon, then that many bytes. -/
def decBytes (l : List Nat) : Option (List Nat × List Nat) :=
  let ds := l.takeWhile isDigitByte
  let r := l.dropWhile isDigitByte
  if ds = [] then none
  else
    match r with
    | 58 :: r2 =>
      if r2.length < digitsVal ds then none
      else some (r2.take (digitsVal ds), r2.drop (digitsVal ds))
    | _ => none

mutual

/-- Modelled from the spec: recursive descent over a bencoded byte stream
(spec glossary, the length-prefixed binary encoding for integers, byte
strings, lists and dictionaries).  The fuel argument bounds nesting depth. -/
def decVal : Nat → List Nat → Option (Value × List Nat)
  | 0, _ => none
  | _ + 1, [] => none
  | fuel + 1, c :: rest =>
    if c == 105 then decInt rest
    else if c == 108 then (decListVals fuel rest).map (fun p => (Value.vlist p.1, p.2))
    else if c == 100 then (decDictEntries fuel rest).map (fun p => (Value.dict p.1, p.2))
    else decBytes (c :: rest) |>.map (fun p => (Value.bstring p.1, p.2))

/-- Elements of a bencoded list up to the terminator byte 0x65. -/
def decListVals : Nat → List Nat → Option (List Value × List Nat)
  | 0, _ => none
  | _ + 1, [] => none
  | _ + 1, 101 :: rest => some ([], rest)
  | fuel + 1, l =>
    match decVal fuel l with
    | none => none
    | some (v, r) =>
      match decListVals fuel r with
      | none => none
      | some (vs, r2) => some (v :: vs, r2)

/-- Key-value entries of a bencoded dictionary up to the terminator byte 0x65. -/
def decDictEntries : Nat → List Nat → Option (List (List Nat × Value) × List Nat)
  | 0, _ => none
  | _ + 1, [] => none
  | _ + 1, 101 :: rest => some ([], rest)
  | fuel + 1, l =>
    match decBytes l with
    | none => none
    | some (k, r) =>
      match decVal fuel r with
      | none => none
      | some (v, r2) =>
        match decDictEntries fuel r2 with
        | none => none
        | some (ps, r3) => some ((k, v) :: ps, r3)

end

/-- Modelled from the spec: `Value::decode`, the decode entry point of the
structured-value library; fails with a `DecodeError` on malformed input or
trailing bytes. -/
def Value.decode (bs : List Nat) : Except DecodeError Value :=
  match decVal (bs.length + 1) bs with
  | some (v, []) => .ok v
  | _ => .error .malformed

/-! ## IP address parsing (external collaborator)

`PeerInfo::from_value` calls Rust std `str::parse::<IpAddr>()`.  That parser
is external library code; only its IPv4 dotted-quad case is modelled (four
decimal octets 0..255 separated by dots, no empty parts, no leading zeros).
The textual IPv6 case is not modelled; no claim depends on it. -/

/-- An IP address.  Only the IPv4 variant is needed: both compact peer lists
and the modelled textual parser produce IPv4 addresses. -/
inductive IpAddr where
  | v4 : Nat → Nat → Nat → Nat → IpAddr
deriving DecidableEq

/-- Rust `SocketAddr`: an IP address and a 16-bit port. -/
structure SocketAddr where
  ip : IpAddr
  port : Nat
deriving DecidableEq

/-- Split a byte list on the dot byte 0x2E. -/
def splitOnDot : List Nat → List (List Nat)
  | [] => [[]]
  | 46 :: rest => [] :: splitOnDot rest
  | c :: rest =>
    match splitOnDot rest with
    | [] => [[c]]
    | g :: gs => (c :: g) :: gs

/-- One decimal octet of a dotted-quad IPv4 literal: nonempty, digits only,
no leading zero (except the single digit 0), value at most 255. -/
def parseOctet (l : List Nat) : Option Nat :=
  match l with
  | [] => none
  | d :: ds =>
    if ¬ (l.all isDigitByte) then none
    else if d = 48 ∧ ds ≠ [] then none
    else if digitsVal l ≤ 255 then some (digitsVal l) else none

/-- The IPv4 dotted-quad case of Rust std `str::parse::<IpAddr>()`. -/
def parseIpAddr (s : List Nat) : Option IpAddr :=
  match splitOnDot s with
  | [a, b, c, d] =>
    match parseOctet a, parseOctet b, parseOctet c, parseOctet d with
    | some va, some vb, some vc, some vd => some (.v4 va vb vc vd)
    | _, _, _, _ => none
  | _ => none

/-- Rust `slice::chunks(6)` with explicit fuel for structural recursion (the
fuel is instantiated with the list length, which always suffices): full
six-byte chunks, then one final shorter chunk when bytes remain. -/
def chunks6Fuel : Nat → List Nat → List (List Nat)
  | 0, _ => []
  | _ + 1, [] => []
  | fuel + 1, b0 :: b1 :: b2 :: b3 :: b4 :: b5 :: rest =>
    [b0, b1, b2, b3, b4, b5] :: chunks6Fuel fuel rest
  | _ + 1, l => [l]

/-- Rust `slice::chunks(6)`: successive chunks of six bytes, the final chunk
possibly shorter. -/
def chunks6 (bs : List Nat) : List (List Nat) := chunks6Fuel bs.length bs

/-- Per-chunk decode over a whole chunk list, propagating a panic (`none`)
from any chunk (the iterator `map ... collect()` of the compact branch). -/
def collectChunks {α : Type} (f : List Nat → Option α) : List (List Nat) → Option (List α)
  | [] => some []
  | c :: rest =>
    match f c with
    | none => none
    | some p =>
      match collectChunks f rest with
      | none => none
      | some ps => some (p :: ps)

namespace tracker

/-- Structure `tracker::PeerInfo` (src/tracker/mod.rs lines 35-41): an optional 20-byte
peer id and the socket address of a candidate peer. -/
structure PeerInfo where
  peer_id : Option (List Nat)
  address : SocketAddr
deriving DecidableEq

/-- Structure `TrackerSuccessResponse` (src/tracker/mod.rs lines 43-57). -/
structure TrackerSuccessResponse where
  interval : Nat
  min_interval : Option Nat
  tracker_id : Option (List Nat)
  complete : Nat
  incomplete : Nat
  peers : List PeerInfo
deriving DecidableEq

/-- Enum `TrackerResponse` (src/tracker/mod.rs lines 59-64). -/
inductive TrackerResponse where
  | Failure : List Nat → TrackerResponse
  | Warning : List Nat → TrackerSuccessResponse → TrackerResponse
  | Success : TrackerSuccessResponse → TrackerResponse
deriving DecidableEq

/-- Enum `TrackerError` (src/tracker/mod.rs lines 67-78).  The payloads of the
connection and decode errors are external library types and are dropped. -/
inductive TrackerError where
  | ConnectionError : TrackerError
  | ResponseError : Nat → TrackerError
  | DecodeError : TrackerError
  | InvalidResponse : TrackerError
deriving DecidableEq

/-- Function `PeerInfo::from_value` (src/tracker/mod.rs lines 96-122).  Rust `String`
errors are byte lists; `none` models the `copy_from_slice` panic raised when
a present `peer id` byte string is not exactly 20 bytes long. -/
def PeerInfo.from_value (val : Value) : Option (Except (List Nat) PeerInfo) :=
  match val.dict? with
  | none => some (.error (asciiBytes ("Not a dictionary")))
  | some map =>
    match (mapGet map (asciiBytes ("peer id"))).bind Value.bstring? with
    | none => some (.error (asciiBytes ("Missing key: peer id")))
    | some bytes =>
      if bytes.length ≠ 20 then none
      else
        match (mapGet map (asciiBytes ("ip"))).bind Value.bstring_utf8 with
        | none => some (.error (asciiBytes ("Missing key: ip")))
        | some s =>
          match parseIpAddr s with
          | none => some (.error (asciiBytes ("Invalid ip addr")))
          | some ip =>
            match (mapGet map (asciiBytes ("port"))).bind Value.integer? with
            | none => some (.error (asciiBytes ("Missing key: port")))
            | some i =>
              some (.ok { peer_id := some bytes, address := { ip := ip, port := intToU16 i } })

/-- One 6-byte chunk of the compact `peers` byte string as decoded by
`TrackerResponse::from_value` (src/tracker/mod.rs lines 160-171): the port is
computed from the chunk's first two bytes (`peer_slice[0] * 256 +
peer_slice[1]`) and the address from its first four.  `none` models the
panics on short chunks: indexing `peer_slice[1]` needs two bytes and slicing
`peer_slice[..4]` needs four. -/
def compactChunk (c : List Nat) : Option PeerInfo :=
  match c with
  | b0 :: b1 :: b2 :: b3 :: _ =>
    some { peer_id := none, address := { ip := .v4 b0 b1 b2 b3, port := b0 * 256 + b1 } }
  | _ => none

/-- The compact (`Value::BString`) branch of the `peers` decode in
`TrackerResponse::from_value` (src/tracker/mod.rs lines 160-172). -/
def compactPeers (bs : List Nat) : Option (List PeerInfo) :=
  collectChunks compactChunk (chunks6 bs)

/-- The list-of-dictionaries branch of the `peers` decode: Rust
`iter().map(PeerInfo::from_value).collect::<Result<Vec<_>, _>>()`, which
stops at the first error without touching later elements. -/
def collectPeerInfos : List Value → Option (Except (List Nat) (List PeerInfo))
  | [] => some (.ok [])
  | v :: rest =>
    match PeerInfo.from_value v with
    | none => none
    | some (.error e) => some (.error e)
    | some (.ok p) =>
      match collectPeerInfos rest with
      | none => none
      | some (.error e) => some (.error e)
      | some (.ok ps) => some (.ok (p :: ps))

/-- The full `peers` field decode of `TrackerResponse::from_value`
(src/tracker/mod.rs lines 154-174): a list value uses the dictionary model, a
byte-string value the compact binary model, anything else is an error. -/
def peersResult (map : List (List Nat × Value)) : Option (Except (List Nat) (List PeerInfo)) :=
  match mapGet map (asciiBytes ("peers")) with
  | none => some (.error (asciiBytes ("Missing key: peers")))
  | some (.vlist peers) => collectPeerInfos peers
  | some (.bstring peers) =>
    match compactPeers peers with
    | none => none
    | some ps => some (.ok ps)
  | some _ => some (.error (asciiBytes ("peers is not in the correct form")))

/-- Classification of the fully decoded payload (src/tracker/mod.rs lines
185-188): a decoded `warning message` wraps the payload in `Warning`,
otherwise the payload is `Success`. -/
def warnOutcome (warning_msg : Option (List Nat)) (res : TrackerSuccessResponse) : TrackerResponse :=
  match warning_msg with
  | some msg => .Warning msg res
  | none => .Success res

/-- `TrackerResponse::from_value` (src/tracker/mod.rs lines 124-190).  `none`
models a panic escaping from the `peers` decode. -/
def TrackerResponse.from_value (val : Value) : Option (Except (List Nat) TrackerResponse) :=
  match val.dict? with
  | none => some (.error (asciiBytes ("Not a dictionary")))
  | some map =>
    match mapGet map (asciiBytes ("failure reason")) with
    | some msg =>
      some (.error ((Value.bstring_utf8 msg).getD (asciiBytes ("unknown failure reason"))))
    | none =>
      let warning_msg := (mapGet map (asciiBytes ("warning message"))).bind Value.bstring_utf8
      match (mapGet map (asciiBytes ("interval"))).bind Value.integer? with
      | none => some (.error (asciiBytes ("Missing key: interval")))
      | some iv =>
        let min_interval := ((mapGet map (asciiBytes ("min interval"))).bind Value.integer?).map intToU32
        let tracker_id := (mapGet map (asciiBytes ("tracker id"))).bind Value.bstring_utf8
        match (mapGet map (asciiBytes ("complete"))).bind Value.integer? with
        | none => some (.error (asciiBytes ("Missing key: complete")))
        | some cv =>
          match (mapGet map (asciiBytes ("incomplete"))).bind Value.integer? with
          | none => some (.error (asciiBytes ("Missing key: incomplete")))
          | some icv =>
            match peersResult map with
            | none => none
            | some (.error e) => some (.error e)
            | some (.ok peers) =>
              some (.ok (warnOutcome warning_msg
                { interval := intToU32 iv, min_interval := min_interval,
                  tracker_id := tracker_id, complete := intToU32 cv,
                  incomplete := intToU32 icv, peers := peers }))

/-- The response handling of `announce` (src/tracker/mod.rs lines 216-222),
as a function of the HTTP status code and the buffered response body: a
non-200 status is `ResponseError`, a body that fails to bdecode is
`DecodeError`, and any `from_value` error becomes `InvalidResponse`.  The
outer `none` models a panic escaping `from_value`; the transport-failure path
(`ConnectionError`) happens before a status exists and is not modelled. -/
def announce (status : Nat) (body : List Nat) : Option (Except TrackerError TrackerResponse) :=
  if status ≠ 200 then some (.error (.ResponseError status))
  else
    match Value.decode body with
    | .error _ => some (.error .DecodeError)
    | .ok v =>
      match TrackerResponse.from_value v with
      | none => none
      | some (.error _) => some (.error .InvalidResponse)
      | some (.ok r) => some (.ok r)

end tracker

namespace peer

/-- Modelled from the spec: the peer wire message kinds in scope (spec
section 4.2: choke, unchoke, interested, not-interested); the
`peer::protocol` codec module itself is not under src/. -/
inductive Message where
  | Choke
  | Unchoke
  | Interested
  | NotInterested
deriving DecidableEq

/-- Structure `Peer` (src/peer/mod.rs lines 34-37): the immutable 20-byte identity and
the command-channel send endpoint (`RefCell<UnboundedSender<Message>>`),
identified here by a channel number. -/
structure Peer where
  peer_id : List Nat
  tx : Nat
deriving DecidableEq

/-- Function `Peer::new` (src/peer/mod.rs lines 54-56). -/
def Peer.new (peer_id : List Nat) (tx : Nat) : Peer := { peer_id := peer_id, tx := tx }

/-- Rust `impl PartialEq for Peer` (src/peer/mod.rs lines 39-43): equality compares
only `peer_id`. -/
def Peer.eq (a b : Peer) : Bool := a.peer_id == b.peer_id

/-- Rust `impl Hash for Peer` (src/peer/mod.rs lines 47-51): only `peer_id` is fed
to the hasher.  The hasher is modelled by its state, the list of bytes
written so far; hashing a fixed byte array writes a length prefix and the
bytes. -/
def Peer.hash (p : Peer) (state : List Nat) : List Nat :=
  state ++ p.peer_id.length :: p.peer_id

/-- Function `UnboundedSender::unbounded_send` (futures library): succeeds exactly
when the receiver half of channel `tx` is still alive, and otherwise returns
a send error carrying the message back. -/
def unbounded_send (receiverAlive : Bool) (m : Message) : Except Message Unit :=
  if receiverAlive then .ok () else .error m

/-- Rust `Result::map_err` with a logging closure (`|e| println!(...)`): the
error value is printed and replaced by unit. -/
def mapErrLog {ε α : Type} : Except ε α → Except Unit α
  | .ok a => .ok a
  | .error _ => .error ()

/-- Rust `Result::unwrap`: `none` models the panic on an `Err`. -/
def unwrapResult {α : Type} : Except Unit α → Option α
  | .ok a => some a
  | .error _ => none

/-- Function `Peer::choke` (src/peer/mod.rs lines 58-62):
`unbounded_send(Choke).map_err(log).unwrap()`.  `receiverAlive` tells for
each channel number whether its receiver still exists. -/
def Peer.choke (p : Peer) (receiverAlive : Nat → Bool) : Option Unit :=
  unwrapResult (mapErrLog (unbounded_send (receiverAlive p.tx) .Choke))

/-- Function `Peer::interested` (src/peer/mod.rs lines 64-68). -/
def Peer.interested (p : Peer) (receiverAlive : Nat → Bool) (is_interested : Bool) : Option Unit :=
  unwrapResult (mapErrLog (unbounded_send (receiverAlive p.tx)
    (if is_interested then .Interested else .NotInterested)))

/-- Function `Peer::close` (src/peer/mod.rs lines 70-72): closes the command channel;
it performs no `unwrap` and cannot panic, so it always returns. -/
def Peer.close (_p : Peer) : Option Unit := some ()

/-- Structure `peer::PeerInfo` (src/peer/mod.rs lines 26-30). -/
structure PeerInfo where
  addr : SocketAddr
  peer_id : Option (List Nat)
deriving DecidableEq

/-- One 6-byte chunk as decoded by `PeerInfo::from_compact` (src/peer/mod.rs
lines 101-112): the port is `NetworkEndian::read_u16(&chunk[4..])` (bytes 4
and 5, big endian) and the address bytes 0..3.  `none` models the panics on a
short final chunk: slicing `chunk[4..]` needs four bytes and `read_u16` needs
two more. -/
def compactChunk (c : List Nat) : Option PeerInfo :=
  match c with
  | b0 :: b1 :: b2 :: b3 :: b4 :: b5 :: _ =>
    some { addr := { ip := .v4 b0 b1 b2 b3, port := b4 * 256 + b5 }, peer_id := none }
  | _ => none

/-- Function `PeerInfo::from_compact` (src/peer/mod.rs lines 101-112). -/
def PeerInfo.from_compact (bytes : List Nat) : Option (List PeerInfo) :=
  collectChunks compactChunk (chunks6 bytes)

/-- Enum `PeerLifecycleEvent` (src/peer/mod.rs lines 21-24). -/
inductive PeerLifecycleEvent where
  | Started : Peer → PeerLifecycleEvent
  | Stopped : List Nat → PeerLifecycleEvent
deriving DecidableEq

/-- Modelled from the spec: the wire handshake payload (spec section 4.1);
the `peer::handshake` codec module is not under src/.  Only the two fields
the connection engine inspects are carried. -/
structure Handshake where
  info_hash : List Nat
  peer_id : List Nat
deriving DecidableEq

/-- Outcome of `read.take(1).into_future()` during the handshake phase:
an I/O error, a stream that ended before any handshake arrived (`None`),
or a received handshake. -/
inductive HandshakeRead where
  | ioError
  | closed
  | received : Handshake → HandshakeRead
deriving DecidableEq

/-- The `take(1).into_future()` result as the `Option<Handshake>` the engine
matches on; `none` is the error case that short-circuits the chain. -/
def readResult : HandshakeRead → Option (Option Handshake)
  | .ioError => none
  | .closed => some none
  | .received h => some (some h)

/-- The guarded match on `maybe_handshake` shared by `handle_stream` (lines
172-178) and `connect` (lines 135-141): only `Some(handshake)` with
`handshake.info_hash == info_hash` proceeds, yielding the remote peer id;
every other case is the invalid-handshake error. -/
def handshakeOutcome (info_hash : List Nat) (mh : Option Handshake) : Option (List Nat) :=
  match mh with
  | some h => if h.info_hash = info_hash then some h.peer_id else none
  | none => none

/-- Which of the two bridging duties of the `select2` race finished first
(the write side forwarding commands to the socket, or the read side
forwarding decoded messages to the shared channel) and whether it finished
with an error. -/
inductive BridgeOutcome where
  | writeEnded : Bool → BridgeOutcome
  | readEnded : Bool → BridgeOutcome
deriving DecidableEq

/-- Lifecycle events emitted during the bridging race itself: neither
forwarding duty sends on the lifecycle channel, whatever ends the race. -/
def bridgeEvents (_b : BridgeOutcome) : List PeerLifecycleEvent := []

/-- Function `handle_stream` (src/peer/mod.rs lines 160-198), as the sequence of
lifecycle events the inbound-accept connection sends on the lifecycle
channel.  Inputs: the expected info hash, our peer id (sent in our handshake
but not inspected afterwards), the channel number of the fresh command
channel, whether writing our handshake succeeded, the handshake-read
outcome, and the outcome of the bridging race.  On handshake success the
`and_then` body emits `Started(Peer)`, and the `.then` finalizer after
`select2` emits `Stopped(peer_id)` for every outcome of the race. -/
def handle_stream (info_hash _our_peer_id : List Nat) (inputChan : Nat) (sendOk : Bool)
    (hr : HandshakeRead) (bridge : BridgeOutcome) : List PeerLifecycleEvent :=
  if ¬ sendOk then []
  else
    match readResult hr with
    | none => []
    | some mh =>
      match handshakeOutcome info_hash mh with
      | none => []
      | some their_peer_id =>
        PeerLifecycleEvent.Started (Peer.new their_peer_id inputChan) ::
          (bridgeEvents bridge ++ [PeerLifecycleEvent.Stopped their_peer_id])

/-- Function `PeerInfo::connect` (src/peer/mod.rs lines 114-157), as the pair of what
the returned oneshot receiver yields (the handshaken `Peer`, delivered by
`peer_sender.send` on handshake success) and the lifecycle events the
connection sends.  `connectOk` is whether `TcpStream::connect` succeeded.
The outbound path has no lifecycle channel at all: after the bridging race
ends, the future simply completes with no finalizer. -/
def connect (info_hash _our_peer_id : List Nat) (inputChan : Nat) (connectOk sendOk : Bool)
    (hr : HandshakeRead) (bridge : BridgeOutcome) : Option Peer × List PeerLifecycleEvent :=
  if ¬ connectOk then (none, [])
  else if ¬ sendOk then (none, [])
  else
    match readResult hr with
    | none => (none, [])
    | some mh =>
      match handshakeOutcome info_hash mh with
      | none => (none, [])
      | some their_peer_id =>
        (some (Peer.new their_peer_id inputChan), bridgeEvents bridge)

end peer

/-! ## Concrete inputs used by the claim theorems -/

/-- A 200 tracker response body whose bencoded dictionary holds only a
`failure reason` key: `d14:failure reason4:oopse`. -/
def failureBody : List Nat := asciiBytes ("d14:failure reason4:oopse")

/-- The concrete scenario body of the spec:
`d8:intervali1800e5:peers6:` followed by the compact peer bytes
7f 00 00 01 1a e1 and the closing `e`. -/
def scenarioBody : List Nat :=
  asciiBytes ("d8:intervali1800e5:peers6:") ++ [127, 0, 0, 1, 26, 225] ++ [101]

/-- The decoded value tree of `scenarioBody`: a dictionary with only the
`interval` and `peers` keys. -/
def scenarioVal : Value :=
  .dict [(asciiBytes ("interval"), .integer 1800),
         (asciiBytes ("peers"), .bstring [127, 0, 0, 1, 26, 225])]

/-- A response dictionary with all mandatory fields and a `warning message`
key whose value is an integer, not a byte string. -/
def warnIntMap : List (List Nat × Value) :=
  [(asciiBytes ("interval"), .integer 1800),
   (asciiBytes ("complete"), .integer 3),
   (asciiBytes ("incomplete"), .integer 4),
   (asciiBytes ("peers"), .bstring []),
   (asciiBytes ("warning message"), .integer 7)]

/-- The same response dictionary with the `warning message` key bound to the
byte string `w`. -/
def warnStrMap : List (List Nat × Value) :=
  [(asciiBytes ("interval"), .integer 1800),
   (asciiBytes ("complete"), .integer 3),
   (asciiBytes ("incomplete"), .integer 4),
   (asciiBytes ("peers"), .bstring []),
   (asciiBytes ("warning message"), .bstring (asciiBytes ("w")))]

/-- The success payload decoded from either warning map. -/
def warnPayload : tracker.TrackerSuccessResponse :=
  { interval := 1800, min_interval := none, tracker_id := none,
    complete := 3, incomplete := 4, peers := [] }

/-- A `peers` list entry whose `peer id` byte string has 19 bytes instead
of 20, with an otherwise well-formed ip and port. -/
def shortIdPeerDict : Value :=
  .dict [(asciiBytes ("peer id"), .bstring (List.replicate 19 1)),
         (asciiBytes ("ip"), .bstring (asciiBytes ("1.2.3.4"))),
         (asciiBytes ("port"), .integer 10)]

/-- A response dictionary with all mandatory fields whose `peers` list
contains `shortIdPeerDict`. -/
def shortIdRespMap : List (List Nat × Value) :=
  [(asciiBytes ("interval"), .integer 1),
   (asciiBytes ("complete"), .integer 0),
   (asciiBytes ("incomplete"), .integer 0),
   (asciiBytes ("peers"), .vlist [shortIdPeerDict])]

/-! ## Claim theorems -/

/-- Claim C1 (code bug): a 200 response whose dictionary contains a
`failure reason` key does not produce `Ok(TrackerResponse::Failure(reason))`:
`TrackerResponse::from_value` returns `Err(reason)` (the `Failure` variant is
never constructed) and `announce` folds every `from_value` error into
`Err(TrackerError::InvalidResponse)` — even though the coordinator matches on
`Ok(Failure)`.  Evaluated at the failing input `d14:failure reason4:oopse`. -/
theorem announce_failure_reason_yields_invalid_response :
    tracker.announce 200 failureBody =
      some (.error tracker.TrackerError.InvalidResponse) := by rfl

/-- Claim C2 (counterexample): the spec scenario body does not decode to
`TrackerResponse::Success`; the whole announce interpretation of the body
yields `Err(InvalidResponse)`. -/
theorem scenario_body_not_success :
    tracker.announce 200 scenarioBody =
      some (.error tracker.TrackerError.InvalidResponse) := by rfl

/-- Claim C2 (amended): the scenario body bdecodes to a dictionary holding
only `interval` and `peers`, and `TrackerResponse::from_value` rejects it
with `Missing key: complete`, because the mandatory `complete` and
`incomplete` keys are absent. -/
theorem scenario_body_missing_complete :
    Value.decode scenarioBody = .ok scenarioVal ∧
    tracker.TrackerResponse.from_value scenarioVal =
      some (.error (asciiBytes ("Missing key: complete"))) := ⟨by rfl, by rfl⟩

/-- Claim C3 (code bug): on the compact chunk 7f 00 00 01 1a e1 the
tracker-response decoder produces port 32512 (computed from the chunk's
first two bytes, `peer_slice[0] * 256 + peer_slice[1]`), while
`PeerInfo::from_compact` produces port 6881 from bytes 4 and 5 as the claim
states; both agree the address is 127.0.0.1. -/
theorem compact_port_bytes_disagree :
    tracker.compactPeers [127, 0, 0, 1, 26, 225] =
      some [{ peer_id := none, address := { ip := .v4 127 0 0 1, port := 32512 } }] ∧
    peer.PeerInfo.from_compact [127, 0, 0, 1, 26, 225] =
      some [{ addr := { ip := .v4 127 0 0 1, port := 6881 }, peer_id := none }] := ⟨by rfl, by rfl⟩

/-- Claim C4 (code bug): with the command channel's receiver gone, both
`choke()` and `interested(true)` panic (`none`): after `map_err` logs the
send error, the trailing `.unwrap()` panics on the replaced error. -/
theorem choke_interested_panic_when_receiver_gone :
    peer.Peer.choke (peer.Peer.new (List.replicate 20 5) 0) (fun _ => false) = none ∧
    peer.Peer.interested (peer.Peer.new (List.replicate 20 5) 0) (fun _ => false) true = none :=
  ⟨by rfl, by rfl⟩

/-- Claim C8 (code bug): a `peers` dictionary entry whose `peer id` byte
string has 19 bytes makes `PeerInfo::from_value` panic (`copy_from_slice`
length mismatch) instead of returning an error, and the panic propagates
through `TrackerResponse::from_value`, so announce crashes rather than
returning `Err(InvalidResponse)`. -/
theorem short_peer_id_panics :
    tracker.PeerInfo.from_value shortIdPeerDict = none ∧
    tracker.TrackerResponse.from_value (.dict shortIdRespMap) = none := ⟨by rfl, by rfl⟩

/-- Claim C9 (confirmed): `Peer` equality holds exactly when the peer ids
are equal, and the bytes fed to the hasher depend only on the peer id, so
two handles with the same id but different command channels are equal and
hash identically. -/
theorem peer_identity_eq_hash (a b : peer.Peer) :
    (peer.Peer.eq a b = true ↔ a.peer_id = b.peer_id) ∧
    (a.peer_id = b.peer_id → ∀ st : List Nat, peer.Peer.hash a st = peer.Peer.hash b st) := by
  constructor
  · simp [peer.Peer.eq]
  · intro h st
    simp [peer.Peer.hash, h]

/-- Claim C9 witness: two concrete handles sharing a 20-byte id on different
channels are equal and produce identical hasher input. -/
theorem peer_identity_eq_hash_witness :
    peer.Peer.eq (peer.Peer.new (List.replicate 20 5) 0) (peer.Peer.new (List.replicate 20 5) 1) = true ∧
    peer.Peer.hash (peer.Peer.new (List.replicate 20 5) 0) [] =
      peer.Peer.hash (peer.Peer.new (List.replicate 20 5) 1) [] :=
  ⟨(peer_identity_eq_hash _ _).1.mpr rfl, (peer_identity_eq_hash _ _).2 rfl []⟩

/-- Claim C10 (counterexample): a compact `peers` byte string of length 4 is
not a multiple of 6 long, yet the tracker-response decoder does not panic on
it — it silently produces a garbage peer (both the indexing `peer_slice[1]`
and the slice `peer_slice[..4]` stay in bounds on a 4-byte chunk). -/
theorem tracker_compact_length4_no_panic :
    tracker.compactPeers [1, 2, 3, 4] =
      some [{ peer_id := none, address := { ip := .v4 1 2 3 4, port := 258 } }] := by rfl

/-- Helper: chunking the empty byte list yields no chunks, for any fuel. -/
theorem chunks6Fuel_nil (f : Nat) : chunks6Fuel f [] = [] := by cases f <;> rfl

/-- Helper: a chunk the decoder accepts does not change whether the whole
chunk-list decode panics. -/
theorem collectChunks_cons_isSome {α : Type} (f : List Nat → Option α) (c : List Nat)
    (cs : List (List Nat)) (p : α) (hc : f c = some p) :
    (collectChunks f (c :: cs)).isSome = (collectChunks f cs).isSome := by
  simp only [collectChunks, hc]
  cases hX : collectChunks f cs <;> simp

/-- Helper for claim C10: characterisation of the panic-free compact inputs
for both decoders, by induction on the chunking fuel. -/
theorem compact_panic_aux : ∀ (fuel : Nat) (bs : List Nat), bs.length ≤ fuel →
    ((collectChunks peer.compactChunk (chunks6Fuel fuel bs)).isSome ↔ bs.length % 6 = 0) ∧
    ((collectChunks tracker.compactChunk (chunks6Fuel fuel bs)).isSome ↔
      (bs.length % 6 = 0 ∨ bs.length % 6 = 4 ∨ bs.length % 6 = 5)) := by
  intro fuel
  induction fuel with
  | zero =>
    intro bs h
    have hb : bs = [] := List.eq_nil_of_length_eq_zero (Nat.le_zero.mp h)
    subst hb
    simp [chunks6Fuel, collectChunks]
  | succ f ih =>
    intro bs h
    rcases bs with _ | ⟨b0, _ | ⟨b1, _ | ⟨b2, _ | ⟨b3, _ | ⟨b4, _ | ⟨b5, rest⟩⟩⟩⟩⟩⟩
    · simp [chunks6Fuel, collectChunks]
    · show ((collectChunks peer.compactChunk [[b0]]).isSome ↔ _) ∧ _
      simp [collectChunks, peer.compactChunk, tracker.compactChunk]
    · show ((collectChunks peer.compactChunk [[b0, b1]]).isSome ↔ _) ∧ _
      simp [collectChunks, peer.compactChunk, tracker.compactChunk]
    · show ((collectChunks peer.compactChunk [[b0, b1, b2]]).isSome ↔ _) ∧ _
      simp [collectChunks, peer.compactChunk, tracker.compactChunk]
    · show ((collectChunks peer.compactChunk [[b0, b1, b2, b3]]).isSome ↔ _) ∧ _
      simp [collectChunks, peer.compactChunk, tracker.compactChunk]
    · show ((collectChunks peer.compactChunk [[b0, b1, b2, b3, b4]]).isSome ↔ _) ∧ _
      simp [collectChunks, peer.compactChunk, tracker.compactChunk]
    · have h6 : rest.length ≤ f := by
        simp only [List.length_cons] at h
        omega
      obtain ⟨ihP, ihT⟩ := ih rest h6
      have stepP := collectChunks_cons_isSome peer.compactChunk [b0, b1, b2, b3, b4, b5]
        (chunks6Fuel f rest) _ rfl
      have stepT := collectChunks_cons_isSome tracker.compactChunk [b0, b1, b2, b3, b4, b5]
        (chunks6Fuel f rest) _ rfl
      constructor
      · show (collectChunks peer.compactChunk
          ([b0, b1, b2, b3, b4, b5] :: chunks6Fuel f rest)).isSome ↔ _
        rw [stepP, ihP]
        simp only [List.length_cons]
        omega
      · show (collectChunks tracker.compactChunk
          ([b0, b1, b2, b3, b4, b5] :: chunks6Fuel f rest)).isSome ↔ _
        rw [stepT, ihT]
        simp only [List.length_cons]
        omega

/-- Claim C10 (amended): `PeerInfo::from_compact` is panic-free exactly on
byte strings whose length is a multiple of 6, but the tracker-response
compact decoder is panic-free exactly when the length is 0, 4 or 5 modulo 6:
a trailing chunk of 4 or 5 bytes stays within every index and slice bound
and silently yields a garbage peer instead of panicking. -/
theorem compact_panic_free_characterisation (bs : List Nat) :
    ((peer.PeerInfo.from_compact bs).isSome ↔ bs.length % 6 = 0) ∧
    ((tracker.compactPeers bs).isSome ↔
      (bs.length % 6 = 0 ∨ bs.length % 6 = 4 ∨ bs.length % 6 = 5)) :=
  compact_panic_aux bs.length bs (Nat.le_refl _)

/-- Claim C6 (confirmed): when the handshake stream ends before a handshake
arrives, or the received handshake carries a different info hash, neither
entry point emits any lifecycle event — the inbound path sends nothing on
the lifecycle channel and the outbound path delivers no peer — so no
`Started` and hence no `Stopped` is ever observed. -/
theorem handshake_failure_emits_no_events
    (info_hash our : List Nat) (chan : Nat) (sendOk connectOk : Bool)
    (hr : peer.HandshakeRead) (bridge : peer.BridgeOutcome)
    (hfail : hr = .closed ∨ ∃ h, hr = .received h ∧ h.info_hash ≠ info_hash) :
    peer.handle_stream info_hash our chan sendOk hr bridge = [] ∧
    peer.connect info_hash our chan connectOk sendOk hr bridge = (none, []) := by
  rcases hfail with rfl | ⟨h, rfl, hne⟩
  · cases sendOk <;> cases connectOk <;>
      simp [peer.handle_stream, peer.connect, peer.readResult, peer.handshakeOutcome]
  · cases sendOk <;> cases connectOk <;>
      simp [peer.handle_stream, peer.connect, peer.readResult, peer.handshakeOutcome, hne]

/-- Claim C6 witness: a concrete connection receiving a handshake whose info
hash differs from the expected one emits no event on either path. -/
theorem handshake_failure_emits_no_events_witness :
    peer.handle_stream (List.replicate 20 1) (List.replicate 20 3) 0 true
      (.received { info_hash := List.replicate 20 2, peer_id := List.replicate 20 9 })
      (.writeEnded true) = [] ∧
    peer.connect (List.replicate 20 1) (List.replicate 20 3) 0 true true
      (.received { info_hash := List.replicate 20 2, peer_id := List.replicate 20 9 })
      (.writeEnded true) = (none, []) :=
  handshake_failure_emits_no_events _ _ _ _ _ _ _ (Or.inr ⟨_, rfl, by decide⟩)

/-- Claim C5 (counterexample): an outbound connection that completes its
handshake — the oneshot delivers the `Peer`, so `Bridging` was entered — and
whose read side then fails emits no lifecycle event at all, in particular
zero `Stopped` events rather than exactly one. -/
theorem connect_bridging_emits_no_stopped :
    peer.connect (List.replicate 20 1) (List.replicate 20 3) 0 true true
      (.received { info_hash := List.replicate 20 1, peer_id := List.replicate 20 9 })
      (.readEnded false) =
      (some (peer.Peer.new (List.replicate 20 9) 0), []) := by rfl

/-- Claim C5 (amended): on the inbound accept path, every connection that
enters `Bridging` emits exactly the trace `Started(peer)` then
`Stopped(peer_id)`, whatever duty ends the bridging race and however it
ends, so `Stopped` is emitted exactly once and only after `Started`; the
outbound connect path, by contrast, emits no lifecycle event whatsoever
(its `Peer` is handed over through the oneshot receiver and it has no
`Stopped` finalizer). -/
theorem lifecycle_inbound_exactly_one_stopped
    (info_hash our : List Nat) (chan : Nat) (h : peer.Handshake)
    (bridge : peer.BridgeOutcome) (hmatch : h.info_hash = info_hash) :
    peer.handle_stream info_hash our chan true (.received h) bridge =
      [.Started (peer.Peer.new h.peer_id chan), .Stopped h.peer_id] ∧
    ∀ (connectOk sendOk : Bool) (hr : peer.HandshakeRead) (bridge2 : peer.BridgeOutcome),
      (peer.connect info_hash our chan connectOk sendOk hr bridge2).2 = [] := by
  constructor
  · simp [peer.handle_stream, peer.readResult, peer.handshakeOutcome, hmatch, peer.bridgeEvents]
  · intro connectOk sendOk hr bridge2
    cases connectOk <;> cases sendOk <;> cases hr <;>
      simp [peer.connect, peer.readResult, peer.handshakeOutcome, peer.bridgeEvents] <;>
      (try split) <;> simp [peer.bridgeEvents]

/-- Claim C5 witness: a concrete matching handshake produces the exact
`Started` then `Stopped` trace on the inbound path, and a concrete outbound
connection produces no lifecycle events. -/
theorem lifecycle_inbound_exactly_one_stopped_witness :
    peer.handle_stream (List.replicate 20 1) (List.replicate 20 3) 0 true
      (.received { info_hash := List.replicate 20 1, peer_id := List.replicate 20 9 })
      (.readEnded false) =
      [.Started (peer.Peer.new (List.replicate 20 9) 0), .Stopped (List.replicate 20 9)] ∧
    (peer.connect (List.replicate 20 1) (List.replicate 20 3) 0 true true
      (.received { info_hash := List.replicate 20 1, peer_id := List.replicate 20 9 })
      (.writeEnded false)).2 = [] :=
  ⟨(lifecycle_inbound_exactly_one_stopped (List.replicate 20 1) (List.replicate 20 3) 0
      { info_hash := List.replicate 20 1, peer_id := List.replicate 20 9 }
      (.readEnded false) rfl).1,
   (lifecycle_inbound_exactly_one_stopped (List.replicate 20 1) (List.replicate 20 3) 0
      { info_hash := List.replicate 20 1, peer_id := List.replicate 20 9 }
      (.readEnded false) rfl).2 true true _ _⟩

/-- Claim C7 (counterexample): a dictionary with all mandatory fields and a
`warning message` key whose value is an integer is classified `Success`,
not `Warning` — the presence of the key alone does not force `Warning`. -/
theorem warning_nonstring_classified_success :
    tracker.TrackerResponse.from_value (.dict warnIntMap) =
      some (.ok (.Success warnPayload)) := by rfl

/-- Claim C7 (amended): given all mandatory fields and no `failure reason`,
the decode succeeds and is classified `Warning(msg, response)` exactly when
the `warning message` key is present with a byte-string value that is valid
UTF-8, and `Success(response)` when the key is absent or its value is not
such a byte string; either way the payload carries all decoded fields. -/
theorem warning_classification
    (map : List (List Nat × Value)) (iv cv icv : Int) (ps : List tracker.PeerInfo)
    (hf : mapGet map (asciiBytes ("failure reason")) = none)
    (hi : (mapGet map (asciiBytes ("interval"))).bind Value.integer? = some iv)
    (hc : (mapGet map (asciiBytes ("complete"))).bind Value.integer? = some cv)
    (hic : (mapGet map (asciiBytes ("incomplete"))).bind Value.integer? = some icv)
    (hp : tracker.peersResult map = some (.ok ps)) :
    (∀ msg, (mapGet map (asciiBytes ("warning message"))).bind Value.bstring_utf8 = some msg →
      tracker.TrackerResponse.from_value (.dict map) =
        some (.ok (.Warning msg
          { interval := intToU32 iv,
            min_interval := ((mapGet map (asciiBytes ("min interval"))).bind Value.integer?).map intToU32,
            tracker_id := (mapGet map (asciiBytes ("tracker id"))).bind Value.bstring_utf8,
            complete := intToU32 cv, incomplete := intToU32 icv, peers := ps }))) ∧
    ((mapGet map (asciiBytes ("warning message"))).bind Value.bstring_utf8 = none →
      tracker.TrackerResponse.from_value (.dict map) =
        some (.ok (.Success
          { interval := intToU32 iv,
            min_interval := ((mapGet map (asciiBytes ("min interval"))).bind Value.integer?).map intToU32,
            tracker_id := (mapGet map (asciiBytes ("tracker id"))).bind Value.bstring_utf8,
            complete := intToU32 cv, incomplete := intToU32 icv, peers := ps }))) := by
  constructor
  · intro msg hw
    simp [tracker.TrackerResponse.from_value, Value.dict?, hf, hi, hc, hic, hp, hw,
      tracker.warnOutcome]
  · intro hw
    simp [tracker.TrackerResponse.from_value, Value.dict?, hf, hi, hc, hic, hp, hw,
      tracker.warnOutcome]

/-- Claim C7 witness: the concrete dictionary with a UTF-8 byte-string
warning yields `Warning` with the fully populated payload. -/
theorem warning_classification_witness :
    tracker.TrackerResponse.from_value (.dict warnStrMap) =
      some (.ok (.Warning (asciiBytes ("w")) warnPayload)) :=
  (warning_classification warnStrMap 1800 3 4 [] rfl rfl rfl rfl rfl).1 (asciiBytes ("w")) rfl
